import Mathlib

/-!
# Verification of the AST search engine of `vhdl_parser` (`src/ast/search.rs`)

This file gives a shallow embedding, in Lean 4, of the generic short-circuiting
tree-traversal engine of the VHDL parser: the control-flow algebra
(`SearchResult`, `SearchState`, `or_else`, `or_not_found`), the per-node-kind
traversal rules (the `Search` impls), and the two concrete searchers
(`ItemAtCursor` for cursor lookup and `FindAllReferences` for reference
collection).

Rust's `&mut self` searcher state is rendered by explicit state passing: a
`Searcher σ T` is a record of hooks of type `σ → Node → σ × SearchState T`,
and every traversal function threads the state `σ` left to right in exactly
the order the Rust code invokes the hooks.  Source positions are modelled as
natural-number offsets (`Position := Nat`); source files as natural-number
identities (`Source := Nat`); both carry the decidable equality and total
order the code relies on.  AST node types are reproduced with exactly the
fields and variants that `search.rs` destructures; fields the traversal never
touches are omitted, and the catch-all `_` match arms of the Rust code are
represented by a single `Other` variant.
-/

namespace VhdlSearch

/-- A position inside one source document, as a linearly ordered offset. -/
abbrev Position := Nat

/-- The identity of a source document (only equality is used). -/
abbrev Source := Nat

/-- A text range with inclusive start and end positions
(`Range { start, end }`; the Rust field `end` is rendered `endp`). -/
structure SrcRange where
  start : Position
  endp : Position
deriving DecidableEq, Repr

/-- A source span: a range within one identified source document. -/
structure SrcPos where
  source : Source
  range : SrcRange
deriving DecidableEq, Repr

/-- `SearchResult<T>`: either `Found(value)` or `NotFound`. -/
inductive SearchResult (T : Type) where
  | Found : T → SearchResult T
  | NotFound : SearchResult T
deriving DecidableEq, Repr

/-- `SearchState<T>`: either `Finished(SearchResult)` or `NotFinished`. -/
inductive SearchState (T : Type) where
  | Finished : SearchResult T → SearchState T
  | NotFinished : SearchState T
deriving DecidableEq, Repr

/-- `SearchState::or_else`: yield the inner result when finished, otherwise
run the fallback computation. -/
def SearchState.or_else {T : Type} (st : SearchState T)
    (nested_fun : Unit → SearchResult T) : SearchResult T :=
  match st with
  | .Finished result => result
  | .NotFinished => nested_fun ()

/-- `SearchState::or_not_found`: `or_else` with the constant `NotFound`
fallback. -/
def SearchState.or_not_found {T : Type} (st : SearchState T) : SearchResult T :=
  st.or_else (fun _ => .NotFound)

/-- Stateful rendering of `or_else`: the hook has already produced a new
searcher state and a `SearchState`; when finished, keep that state and the
inner result, otherwise run the fallback on the state. -/
def orElseS {σ T : Type} (p : σ × SearchState T)
    (f : σ → σ × SearchResult T) : σ × SearchResult T :=
  match p with
  | (s, .Finished result) => (s, result)
  | (s, .NotFinished) => f s

/-- Stateful rendering of `or_not_found`. -/
def orNotFoundS {σ T : Type} (p : σ × SearchState T) : σ × SearchResult T :=
  orElseS p (fun s => (s, .NotFound))

/-- Stateful rendering of the `return_if!` macro followed by the rest of a
search body: propagate `Found` immediately, otherwise continue. -/
def thenIfNotFound {σ T : Type} (p : σ × SearchResult T)
    (f : σ → σ × SearchResult T) : σ × SearchResult T :=
  match p with
  | (s, .Found v) => (s, .Found v)
  | (s, .NotFound) => f s

/-! ## The AST node types, with exactly the shape `search.rs` destructures -/

/-- A designator (identifier / operator symbol / character); the traversal
never inspects it, so it is an opaque code. -/
abbrev Designator := Nat

/-- An interned symbol; the traversal never inspects it. -/
abbrev Symbol := Nat

/-- `WithRef<A>`: a name occurrence `item` carrying the optional resolved
back-pointer `reference` to the span of the declaration it denotes. -/
structure WithRef (A : Type) where
  item : A
  reference : Option SrcPos
deriving DecidableEq, Repr

/-- `WithPos<A>`: a value together with its source span. -/
structure WithPos (A : Type) where
  item : A
  pos : SrcPos
deriving DecidableEq, Repr

/-- An identifier: a symbol with its span (`Ident = WithPos<Symbol>`). -/
abbrev Ident := WithPos Symbol

/-- `WithPos<SelectedName>` with the position inlined into each variant:
either a `prefix.suffix` selection (prefix rendered `pfx`) or a bare
designator. -/
inductive SelectedNameP where
  | Selected : SrcPos → SelectedNameP → WithPos (WithRef Designator) → SelectedNameP
  | Designator : SrcPos → WithRef Designator → SelectedNameP
deriving DecidableEq, Repr

/-- `SubtypeIndication`; only the `type_mark` field is traversed. -/
structure SubtypeIndication where
  type_mark : SelectedNameP
deriving DecidableEq, Repr

/-- A record element declaration; only its `subtype` field is traversed. -/
structure ElementDeclaration where
  ident : Ident
  subtype : SubtypeIndication
deriving DecidableEq, Repr

/-- The payload of `InterfaceDeclaration::Object`; the traversal reads only
`subtype_indication`, the `ident` is the interface object's declaration
site. -/
structure InterfaceObjectDeclaration where
  ident : Ident
  subtype_indication : SubtypeIndication
deriving DecidableEq, Repr

/-- The payload of `Declaration::Object`; only `subtype_indication` is
traversed. -/
structure ObjectDeclaration where
  ident : Ident
  subtype_indication : SubtypeIndication
deriving DecidableEq, Repr

/-- The payload of `Declaration::Alias`; only the optional
`subtype_indication` is traversed. -/
structure AliasDeclaration where
  subtype_indication : Option SubtypeIndication
deriving DecidableEq, Repr

/-- `Attribute`: a declaration (whose `type_mark` is traversed) or a
specification (not traversed, matched by the catch-all arm). -/
inductive AttributeNode where
  | Declaration : SelectedNameP → AttributeNode
  | Specification : AttributeNode
deriving DecidableEq, Repr

/-- A sequential statement; the traversal only offers it to the sequential
statement hook and never descends, so its contents are an opaque code. -/
structure LabeledSequentialStatement where
  tag : Nat
deriving DecidableEq, Repr

mutual

/-- `SubprogramDeclaration`: a function or procedure specification. -/
inductive SubprogramDeclaration where
  | Function : FunctionSpecification → SubprogramDeclaration
  | Procedure : ProcedureSpecification → SubprogramDeclaration

/-- `ProcedureSpecification`; only `parameter_list` is traversed. -/
inductive ProcedureSpecification where
  | mk : List InterfaceDeclaration → ProcedureSpecification

/-- `FunctionSpecification`; `parameter_list` then `return_type` are
traversed. -/
inductive FunctionSpecification where
  | mk : List InterfaceDeclaration → SelectedNameP → FunctionSpecification

/-- `InterfaceDeclaration`: an object-kind interface (generic/port/
parameter), a subprogram-kind interface, or any other variant (matched by
the catch-all arm and not descended into). -/
inductive InterfaceDeclaration where
  | Object : InterfaceObjectDeclaration → InterfaceDeclaration
  | Subprogram : SubprogramDeclaration → InterfaceDeclaration
  | Other : InterfaceDeclaration

end

/-- `ProcedureSpecification.parameter_list`. -/
def ProcedureSpecification.parameter_list :
    ProcedureSpecification → List InterfaceDeclaration
  | .mk ps => ps

/-- `FunctionSpecification.parameter_list`. -/
def FunctionSpecification.parameter_list :
    FunctionSpecification → List InterfaceDeclaration
  | .mk ps _ => ps

/-- `FunctionSpecification.return_type`. -/
def FunctionSpecification.return_type : FunctionSpecification → SelectedNameP
  | .mk _ rt => rt

mutual

/-- `TypeDeclaration`: an identifier (the type's declaration site) and a
type definition (Rust field `def`, rendered `defn`). -/
inductive TypeDeclaration where
  | mk : Ident → TypeDefinition → TypeDeclaration

/-- `TypeDefinition`, keeping exactly the variants `search.rs`
distinguishes; `Other` stands for the catch-all `_ => {}` arm (enumeration,
integer, physical, file, incomplete, ...).  The index information of
`Array(.., subtype)` is not traversed and therefore omitted. -/
inductive TypeDefinition where
  | ProtectedBody : List Declaration → TypeDefinition
  | Protected : List ProtectedTypeDeclarativeItem → TypeDefinition
  | Record : List ElementDeclaration → TypeDefinition
  | Access : SubtypeIndication → TypeDefinition
  | Array : SubtypeIndication → TypeDefinition
  | Subtype : SubtypeIndication → TypeDefinition
  | Other : TypeDefinition

/-- `ProtectedTypeDeclarativeItem`: only subprogram items exist. -/
inductive ProtectedTypeDeclarativeItem where
  | Subprogram : SubprogramDeclaration → ProtectedTypeDeclarativeItem

/-- `Declaration`, keeping exactly the variants `search.rs` distinguishes;
`TypeDecl` renders `Declaration::Type` (`Type` is a Lean keyword),
`SubprogramDecl` renders `Declaration::SubprogramDeclaration`, `Other` the
catch-all `_ => {}` arm.  A subprogram body carries its specification and
its local declarations (its sequential statements are not traversed). -/
inductive Declaration where
  | Object : ObjectDeclaration → Declaration
  | TypeDecl : TypeDeclaration → Declaration
  | SubprogramBody : SubprogramDeclaration → List Declaration → Declaration
  | SubprogramDecl : SubprogramDeclaration → Declaration
  | Attribute : AttributeNode → Declaration
  | Alias : AliasDeclaration → Declaration
  | Other : Declaration

end

/-- `TypeDeclaration.ident`. -/
def TypeDeclaration.ident : TypeDeclaration → Ident
  | .mk i _ => i

/-- `TypeDeclaration.def` (rendered `defn`; `def` is a Lean keyword). -/
def TypeDeclaration.defn : TypeDeclaration → TypeDefinition
  | .mk _ d => d

mutual

/-- `LabeledConcurrentStatement`; the label is never read by the traversal
and is omitted, only the `statement` field is kept. -/
inductive LabeledConcurrentStatement where
  | mk : ConcurrentStatement → LabeledConcurrentStatement

/-- `ConcurrentStatement`, keeping exactly the variants `search.rs`
distinguishes.  For if-generate the list holds each conditional's `item`
body, followed by the optional else body; for case-generate the list holds
each alternative's `item` body.  `Other` stands for the `@TODO not searched`
catch-all arm (e.g. component instantiation). -/
inductive ConcurrentStatement where
  | Block : List Declaration → List LabeledConcurrentStatement → ConcurrentStatement
  | Process : List Declaration → List LabeledSequentialStatement → ConcurrentStatement
  | ForGenerate : GenerateBody → ConcurrentStatement
  | IfGenerate : List GenerateBody → Option GenerateBody → ConcurrentStatement
  | CaseGenerate : List GenerateBody → ConcurrentStatement
  | Other : ConcurrentStatement

/-- `GenerateBody`: declarations then statements. -/
inductive GenerateBody where
  | mk : List Declaration → List LabeledConcurrentStatement → GenerateBody

end

/-- `LabeledConcurrentStatement.statement`. -/
def LabeledConcurrentStatement.statement :
    LabeledConcurrentStatement → ConcurrentStatement
  | .mk s => s

/-- `GenerateBody.decl`. -/
def GenerateBody.decl : GenerateBody → List Declaration
  | .mk d _ => d

/-- `GenerateBody.statements`. -/
def GenerateBody.statements : GenerateBody → List LabeledConcurrentStatement
  | .mk _ s => s

/-- The `unit` of an `EntityUnit`: an entity declaration with its
identifier, generic clause, port clause, declarative part and statement
part. -/
structure EntityDeclaration where
  ident : Ident
  generic_clause : Option (List InterfaceDeclaration)
  port_clause : Option (List InterfaceDeclaration)
  decl : List Declaration
  statements : List LabeledConcurrentStatement

/-- An entity design unit: its source identity and its declaration. -/
structure EntityUnit where
  source : Source
  unit : EntityDeclaration

/-- `EntityUnit::ident()`. -/
def EntityUnit.ident (u : EntityUnit) : Ident := u.unit.ident

/-- The `unit` of an `ArchitectureUnit` (declarations and statements). -/
structure ArchitectureBody where
  decl : List Declaration
  statements : List LabeledConcurrentStatement

/-- An architecture design unit. -/
structure ArchitectureUnit where
  source : Source
  unit : ArchitectureBody

/-- The `unit` of a `PackageUnit` (generic clause and declarations). -/
structure PackageDeclaration where
  generic_clause : Option (List InterfaceDeclaration)
  decl : List Declaration

/-- A package design unit. -/
structure PackageUnit where
  source : Source
  unit : PackageDeclaration

/-- The `unit` of a `PackageBodyUnit` (declarations). -/
structure PackageBody where
  decl : List Declaration

/-- A package body design unit. -/
structure PackageBodyUnit where
  source : Source
  unit : PackageBody

/-- The `unit` of a `PackageInstanceUnit` (the instantiated package's
name). -/
structure PackageInstantiation where
  package_name : SelectedNameP

/-- A package instantiation design unit. -/
structure PackageInstanceUnit where
  source : Source
  unit : PackageInstantiation

/-- The `unit` of a `ConfigurationUnit` (the configured entity's name). -/
structure ConfigurationDeclaration where
  entity_name : SelectedNameP

/-- A configuration design unit. -/
structure ConfigurationUnit where
  source : Source
  unit : ConfigurationDeclaration

/-! ## The `Searcher` capability interface

One hook per interesting node kind, each defaulting to `NotFinished`; Rust's
`&mut self` is rendered by threading a state `σ` through every hook. -/

/-- The `Searcher<T>` trait as a record of state-passing hooks, every field
defaulting to the trait's default body `NotFinished`. -/
structure Searcher (σ T : Type) where
  search_labeled_concurrent_statement :
      σ → LabeledConcurrentStatement → σ × SearchState T := fun s _ => (s, .NotFinished)
  search_labeled_sequential_statement :
      σ → LabeledSequentialStatement → σ × SearchState T := fun s _ => (s, .NotFinished)
  search_declaration :
      σ → Declaration → σ × SearchState T := fun s _ => (s, .NotFinished)
  search_type_declaration :
      σ → TypeDeclaration → σ × SearchState T := fun s _ => (s, .NotFinished)
  search_interface_declaration :
      σ → InterfaceDeclaration → σ × SearchState T := fun s _ => (s, .NotFinished)
  search_subtype_indication :
      σ → SubtypeIndication → σ × SearchState T := fun s _ => (s, .NotFinished)
  search_entity :
      σ → EntityUnit → σ × SearchState T := fun s _ => (s, .NotFinished)
  search_designator_ref :
      σ → SrcPos → WithRef Designator → σ × SearchState T := fun s _ _ => (s, .NotFinished)
  search_with_pos :
      σ → SrcPos → σ × SearchState T := fun s _ => (s, .NotFinished)
  search_source :
      σ → Source → σ × SearchState T := fun s _ => (s, .NotFinished)

/-! ## The traversal rules (the `Search<T>` impls), one function per impl -/

/-- `impl Search for LabeledSequentialStatement`: hook only, no descent. -/
def searchSequentialStatement {σ T : Type} (sr : Searcher σ T) (s : σ)
    (stmt : LabeledSequentialStatement) : σ × SearchResult T :=
  orElseS (sr.search_labeled_sequential_statement s stmt) (fun s1 => (s1, .NotFound))

/-- `impl Search for Vec<LabeledSequentialStatement>`. -/
def searchSequentialList {σ T : Type} (sr : Searcher σ T) (s : σ) :
    List LabeledSequentialStatement → σ × SearchResult T
  | [] => (s, .NotFound)
  | stmt :: rest =>
      thenIfNotFound (searchSequentialStatement sr s stmt)
        (fun s1 => searchSequentialList sr s1 rest)

/-- `impl Search for WithPos<WithRef<Designator>>`: the bare-span hook
first; if undecided, the designator-reference hook, `or_not_found`. -/
def searchPosDesignator {σ T : Type} (sr : Searcher σ T) (s : σ)
    (d : WithPos (WithRef Designator)) : σ × SearchResult T :=
  orElseS (sr.search_with_pos s d.pos) (fun s1 =>
    orNotFoundS (sr.search_designator_ref s1 d.pos d.item))

/-- `impl Search for WithPos<SelectedName>`: a selection searches the
prefix, then the suffix designator; a bare designator goes straight to the
designator-reference hook (no bare-span hook), `or_not_found`. -/
def searchSelectedName {σ T : Type} (sr : Searcher σ T) (s : σ) :
    SelectedNameP → σ × SearchResult T
  | .Selected _pos pfx dsg =>
      thenIfNotFound (searchSelectedName sr s pfx) (fun s1 =>
        thenIfNotFound (searchPosDesignator sr s1 dsg) (fun s2 => (s2, .NotFound)))
  | .Designator pos d => orNotFoundS (sr.search_designator_ref s pos d)

/-- `impl Search for SubtypeIndication`: hook first, else the type mark. -/
def searchSubtypeIndication {σ T : Type} (sr : Searcher σ T) (s : σ)
    (si : SubtypeIndication) : σ × SearchResult T :=
  orElseS (sr.search_subtype_indication s si) (fun s1 =>
    thenIfNotFound (searchSelectedName sr s1 si.type_mark) (fun s2 => (s2, .NotFound)))

/-- `impl Search for Vec<ElementDeclaration>` as used by the record arm:
each element's subtype in order. -/
def searchElementList {σ T : Type} (sr : Searcher σ T) (s : σ) :
    List ElementDeclaration → σ × SearchResult T
  | [] => (s, .NotFound)
  | elem :: rest =>
      thenIfNotFound (searchSubtypeIndication sr s elem.subtype)
        (fun s1 => searchElementList sr s1 rest)

mutual

/-- `impl Search for SubprogramDeclaration`: function or procedure
specification, then `NotFound`. -/
def searchSubprogramDeclaration {σ T : Type} (sr : Searcher σ T) (s : σ) :
    SubprogramDeclaration → σ × SearchResult T
  | .Function decl =>
      thenIfNotFound (searchFunctionSpecification sr s decl) (fun s1 => (s1, .NotFound))
  | .Procedure decl =>
      thenIfNotFound (searchProcedureSpecification sr s decl) (fun s1 => (s1, .NotFound))

/-- `impl Search for ProcedureSpecification`: its parameter list. -/
def searchProcedureSpecification {σ T : Type} (sr : Searcher σ T) (s : σ) :
    ProcedureSpecification → σ × SearchResult T
  | .mk parameter_list => searchInterfaceList sr s parameter_list

/-- `impl Search for FunctionSpecification`: parameter list, then return
type. -/
def searchFunctionSpecification {σ T : Type} (sr : Searcher σ T) (s : σ) :
    FunctionSpecification → σ × SearchResult T
  | .mk parameter_list return_type =>
      thenIfNotFound (searchInterfaceList sr s parameter_list)
        (fun s1 => searchSelectedName sr s1 return_type)

/-- `impl Search for InterfaceDeclaration`: hook first, else by variant. -/
def searchInterfaceDeclaration {σ T : Type} (sr : Searcher σ T) (s : σ)
    (decl : InterfaceDeclaration) : σ × SearchResult T :=
  orElseS (sr.search_interface_declaration s decl) (fun s1 =>
    match decl with
    | .Object obj =>
        thenIfNotFound (searchSubtypeIndication sr s1 obj.subtype_indication)
          (fun s2 => (s2, .NotFound))
    | .Subprogram sub =>
        thenIfNotFound (searchSubprogramDeclaration sr s1 sub)
          (fun s2 => (s2, .NotFound))
    | .Other => (s1, .NotFound))

/-- `impl Search for Vec<InterfaceDeclaration>`. -/
def searchInterfaceList {σ T : Type} (sr : Searcher σ T) (s : σ) :
    List InterfaceDeclaration → σ × SearchResult T
  | [] => (s, .NotFound)
  | decl :: rest =>
      thenIfNotFound (searchInterfaceDeclaration sr s decl)
        (fun s1 => searchInterfaceList sr s1 rest)

end

/-- `impl Search for Vec<ProtectedTypeDeclarativeItem>` as used by the
protected-type arm: each subprogram item. -/
def searchProtectedItemList {σ T : Type} (sr : Searcher σ T) (s : σ) :
    List ProtectedTypeDeclarativeItem → σ × SearchResult T
  | [] => (s, .NotFound)
  | .Subprogram sub :: rest =>
      thenIfNotFound (searchSubprogramDeclaration sr s sub)
        (fun s1 => searchProtectedItemList sr s1 rest)

/-- `impl Search for Option<SubtypeIndication>`. -/
def searchOptionSubtypeIndication {σ T : Type} (sr : Searcher σ T) (s : σ) :
    Option SubtypeIndication → σ × SearchResult T
  | none => (s, .NotFound)
  | some si =>
      thenIfNotFound (searchSubtypeIndication sr s si) (fun s1 => (s1, .NotFound))

mutual

/-- `impl Search for TypeDeclaration`: hook first, else by definition
variant; variants outside the match contribute nothing beyond the hook
(the inner match destructures `decl` so that the recursion is visibly
structural; it reads `decl.def` in the Rust code). -/
def searchTypeDeclaration {σ T : Type} (sr : Searcher σ T) (s : σ)
    (decl : TypeDeclaration) : σ × SearchResult T :=
  orElseS (sr.search_type_declaration s decl) (fun s1 =>
    match decl with
    | .mk _ defn =>
      match defn with
      | .ProtectedBody body_decl =>
          thenIfNotFound (searchDeclarationList sr s1 body_decl)
            (fun s2 => (s2, .NotFound))
      | .Protected items =>
          thenIfNotFound (searchProtectedItemList sr s1 items)
            (fun s2 => (s2, .NotFound))
      | .Record element_decls =>
          thenIfNotFound (searchElementList sr s1 element_decls)
            (fun s2 => (s2, .NotFound))
      | .Access subtype_indication =>
          thenIfNotFound (searchSubtypeIndication sr s1 subtype_indication)
            (fun s2 => (s2, .NotFound))
      | .Array subtype_indication =>
          thenIfNotFound (searchSubtypeIndication sr s1 subtype_indication)
            (fun s2 => (s2, .NotFound))
      | .Subtype subtype_indication =>
          thenIfNotFound (searchSubtypeIndication sr s1 subtype_indication)
            (fun s2 => (s2, .NotFound))
      | .Other => (s1, .NotFound))

/-- `impl Search for Declaration`: hook first, else by variant; variants
outside the match contribute nothing beyond the hook. -/
def searchDeclaration {σ T : Type} (sr : Searcher σ T) (s : σ)
    (decl : Declaration) : σ × SearchResult T :=
  orElseS (sr.search_declaration s decl) (fun s1 =>
    match decl with
    | .Object object =>
        thenIfNotFound (searchSubtypeIndication sr s1 object.subtype_indication)
          (fun s2 => (s2, .NotFound))
    | .TypeDecl typ =>
        thenIfNotFound (searchTypeDeclaration sr s1 typ)
          (fun s2 => (s2, .NotFound))
    | .SubprogramBody specification declarations =>
        thenIfNotFound (searchSubprogramDeclaration sr s1 specification)
          (fun s2 =>
            thenIfNotFound (searchDeclarationList sr s2 declarations)
              (fun s3 => (s3, .NotFound)))
    | .SubprogramDecl sub =>
        thenIfNotFound (searchSubprogramDeclaration sr s1 sub)
          (fun s2 => (s2, .NotFound))
    | .Attribute a =>
        match a with
        | .Declaration type_mark =>
            thenIfNotFound (searchSelectedName sr s1 type_mark)
              (fun s2 => (s2, .NotFound))
        | .Specification => (s1, .NotFound)
    | .Alias decl =>
        thenIfNotFound (searchOptionSubtypeIndication sr s1 decl.subtype_indication)
          (fun s2 => (s2, .NotFound))
    | .Other => (s1, .NotFound))

/-- `impl Search for Vec<Declaration>`. -/
def searchDeclarationList {σ T : Type} (sr : Searcher σ T) (s : σ) :
    List Declaration → σ × SearchResult T
  | [] => (s, .NotFound)
  | decl :: rest =>
      thenIfNotFound (searchDeclaration sr s decl)
        (fun s1 => searchDeclarationList sr s1 rest)

end

mutual

/-- `impl Search for LabeledConcurrentStatement`: hook first, else by
variant; the `@TODO not searched` variants contribute nothing. -/
def searchConcurrentStatement {σ T : Type} (sr : Searcher σ T) (s : σ)
    (stmt : LabeledConcurrentStatement) : σ × SearchResult T :=
  orElseS (sr.search_labeled_concurrent_statement s stmt) (fun s1 =>
    match stmt with
    | .mk statement =>
      match statement with
      | .Block block_decl block_statements =>
          thenIfNotFound (searchDeclarationList sr s1 block_decl)
            (fun s2 => searchConcurrentList sr s2 block_statements)
      | .Process process_decl process_statements =>
          thenIfNotFound (searchDeclarationList sr s1 process_decl)
            (fun s2 => searchSequentialList sr s2 process_statements)
      | .ForGenerate body => searchGenerateBody sr s1 body
      | .IfGenerate conditionals else_item =>
          thenIfNotFound (searchGenerateBodyList sr s1 conditionals)
            (fun s2 => searchOptionGenerateBody sr s2 else_item)
      | .CaseGenerate alternatives =>
          thenIfNotFound (searchGenerateBodyList sr s1 alternatives)
            (fun s2 => (s2, .NotFound))
      | .Other => (s1, .NotFound))

/-- `impl Search for Vec<LabeledConcurrentStatement>`. -/
def searchConcurrentList {σ T : Type} (sr : Searcher σ T) (s : σ) :
    List LabeledConcurrentStatement → σ × SearchResult T
  | [] => (s, .NotFound)
  | stmt :: rest =>
      thenIfNotFound (searchConcurrentStatement sr s stmt)
        (fun s1 => searchConcurrentList sr s1 rest)

/-- `impl Search for GenerateBody`: declarations, then statements. -/
def searchGenerateBody {σ T : Type} (sr : Searcher σ T) (s : σ) :
    GenerateBody → σ × SearchResult T
  | .mk decl statements =>
      thenIfNotFound (searchDeclarationList sr s decl)
        (fun s1 => searchConcurrentList sr s1 statements)

/-- The if-generate conditional / case-generate alternative bodies, in
order (each `conditional.item` / `alternative.item`). -/
def searchGenerateBodyList {σ T : Type} (sr : Searcher σ T) (s : σ) :
    List GenerateBody → σ × SearchResult T
  | [] => (s, .NotFound)
  | body :: rest =>
      thenIfNotFound (searchGenerateBody sr s body)
        (fun s1 => searchGenerateBodyList sr s1 rest)

/-- `impl Search for Option<GenerateBody>` (the if-generate else item). -/
def searchOptionGenerateBody {σ T : Type} (sr : Searcher σ T) (s : σ) :
    Option GenerateBody → σ × SearchResult T
  | none => (s, .NotFound)
  | some body =>
      thenIfNotFound (searchGenerateBody sr s body) (fun s1 => (s1, .NotFound))

end

/-- `impl Search for Option<Vec<InterfaceDeclaration>>` (generic and port
clauses). -/
def searchOptionInterfaceList {σ T : Type} (sr : Searcher σ T) (s : σ) :
    Option (List InterfaceDeclaration) → σ × SearchResult T
  | none => (s, .NotFound)
  | some decls =>
      thenIfNotFound (searchInterfaceList sr s decls) (fun s1 => (s1, .NotFound))

/-- `impl Search for EntityUnit`: source hook, then entity hook, then
generics, ports, declarations, statements. -/
def searchEntityUnit {σ T : Type} (sr : Searcher σ T) (s : σ)
    (u : EntityUnit) : σ × SearchResult T :=
  orElseS (sr.search_source s u.source) (fun s1 =>
    orElseS (sr.search_entity s1 u) (fun s2 =>
      thenIfNotFound (searchOptionInterfaceList sr s2 u.unit.generic_clause)
        (fun s3 =>
          thenIfNotFound (searchOptionInterfaceList sr s3 u.unit.port_clause)
            (fun s4 =>
              thenIfNotFound (searchDeclarationList sr s4 u.unit.decl)
                (fun s5 => searchConcurrentList sr s5 u.unit.statements)))))

/-- `impl Search for ArchitectureUnit`: source hook, then declarations,
then statements. -/
def searchArchitectureUnit {σ T : Type} (sr : Searcher σ T) (s : σ)
    (u : ArchitectureUnit) : σ × SearchResult T :=
  orElseS (sr.search_source s u.source) (fun s1 =>
    thenIfNotFound (searchDeclarationList sr s1 u.unit.decl)
      (fun s2 => searchConcurrentList sr s2 u.unit.statements))

/-- `impl Search for PackageUnit`: source hook, then generics, then
declarations. -/
def searchPackageUnit {σ T : Type} (sr : Searcher σ T) (s : σ)
    (u : PackageUnit) : σ × SearchResult T :=
  orElseS (sr.search_source s u.source) (fun s1 =>
    thenIfNotFound (searchOptionInterfaceList sr s1 u.unit.generic_clause)
      (fun s2 => searchDeclarationList sr s2 u.unit.decl))

/-- `impl Search for PackageBodyUnit`: source hook, then declarations. -/
def searchPackageBodyUnit {σ T : Type} (sr : Searcher σ T) (s : σ)
    (u : PackageBodyUnit) : σ × SearchResult T :=
  orElseS (sr.search_source s u.source)
    (fun s1 => searchDeclarationList sr s1 u.unit.decl)

/-- `impl Search for PackageInstanceUnit`: source hook, then the package
name. -/
def searchPackageInstanceUnit {σ T : Type} (sr : Searcher σ T) (s : σ)
    (u : PackageInstanceUnit) : σ × SearchResult T :=
  orElseS (sr.search_source s u.source)
    (fun s1 => searchSelectedName sr s1 u.unit.package_name)

/-- `impl Search for ConfigurationUnit`: source hook, then the entity
name. -/
def searchConfigurationUnit {σ T : Type} (sr : Searcher σ T) (s : σ)
    (u : ConfigurationUnit) : σ × SearchResult T :=
  orElseS (sr.search_source s u.source)
    (fun s1 => searchSelectedName sr s1 u.unit.entity_name)

/-- The cursor-lookup query state: target source identity and cursor
position (`struct ItemAtCursor`). -/
structure ItemAtCursor where
  source : Source
  cursor : Position
deriving DecidableEq, Repr

/-- `ItemAtCursor::is_inside`: the cursor is the gap between character
`cursor` and `cursor + 1`, so it matches a span containing either boundary:
`pos.range.start <= cursor && cursor <= pos.range.end`. -/
def ItemAtCursor.is_inside (q : ItemAtCursor) (pos : SrcPos) : Bool :=
  pos.range.start ≤ q.cursor && q.cursor ≤ pos.range.endp

/-- `impl Searcher<SrcPos> for ItemAtCursor`: the cursor-lookup searcher.
It carries no mutable state, so its state type is `Unit`. -/
def itemAtCursorSearcher (q : ItemAtCursor) : Searcher Unit SrcPos where
  search_with_pos := fun s pos =>
    (s, if q.is_inside pos then .NotFinished else .Finished .NotFound)
  search_entity := fun s ent =>
    (s, if q.is_inside ent.ident.pos then .Finished (.Found ent.ident.pos)
        else .NotFinished)
  search_designator_ref := fun s pos designator =>
    (s, if ¬ q.is_inside pos then .Finished .NotFound
        else match designator.reference with
          | some reference => .Finished (.Found reference)
          | none => .Finished .NotFound)
  search_type_declaration := fun s decl =>
    (s, if q.is_inside decl.ident.pos then .Finished (.Found decl.ident.pos)
        else .Finished .NotFound)
  search_source := fun s source =>
    (s, if source = q.source then .NotFinished else .Finished .NotFound)

/-- The public cursor-lookup entry point on an entity root:
`searchable.search(&mut ItemAtCursor::new(source, cursor))`. -/
def itemAtCursor (q : ItemAtCursor) (u : EntityUnit) : SearchResult SrcPos :=
  (searchEntityUnit (itemAtCursorSearcher q) () u).2

/-- `impl Searcher<()> for FindAllReferences` with target span `decl_pos`:
the accumulator of matched spans is the searcher state.  `search_entity`
appends the entity's identifier span when it equals the target
(`search_decl_pos`); `search_designator_ref` appends the occurrence span
when the resolved reference equals the target; both always continue. -/
def findAllReferencesSearcher (decl_pos : SrcPos) :
    Searcher (List SrcPos) Unit where
  search_entity := fun references ent =>
    (if ent.ident.pos = decl_pos then references ++ [ent.ident.pos]
     else references, .NotFinished)
  search_designator_ref := fun references pos designator =>
    (match designator.reference with
     | some reference =>
         if reference = decl_pos then references ++ [pos] else references
     | none => references, .NotFinished)

/-- `FindAllReferences::search` on an entity root: run the traversal from
the empty accumulator, discard the (always `NotFound`) search result and
return the accumulated references. -/
def findAllReferences (decl_pos : SrcPos) (u : EntityUnit) : List SrcPos :=
  (searchEntityUnit (findAllReferencesSearcher decl_pos) [] u).1

/-! ## Instrumentation: a wrapper recording every hook invocation

Used to state the "no hook inside the subtree is ever invoked" pruning
properties (an instrumented counting searcher, as the spec suggests). -/

/-- One tag per `Searcher` hook. -/
inductive HookTag where
  | concurrentStatement
  | sequentialStatement
  | declaration
  | typeDeclaration
  | interfaceDeclaration
  | subtypeIndication
  | entity
  | designatorRef
  | withPos
  | source
deriving DecidableEq, Repr

/-- Wrap a searcher so that every hook invocation appends its tag to a
log carried alongside the original state; the hooks' answers are
unchanged. -/
def instrument {σ T : Type} (sr : Searcher σ T) :
    Searcher (σ × List HookTag) T where
  search_labeled_concurrent_statement := fun p stmt =>
    match sr.search_labeled_concurrent_statement p.1 stmt with
    | (s, st) => ((s, p.2 ++ [.concurrentStatement]), st)
  search_labeled_sequential_statement := fun p stmt =>
    match sr.search_labeled_sequential_statement p.1 stmt with
    | (s, st) => ((s, p.2 ++ [.sequentialStatement]), st)
  search_declaration := fun p decl =>
    match sr.search_declaration p.1 decl with
    | (s, st) => ((s, p.2 ++ [.declaration]), st)
  search_type_declaration := fun p decl =>
    match sr.search_type_declaration p.1 decl with
    | (s, st) => ((s, p.2 ++ [.typeDeclaration]), st)
  search_interface_declaration := fun p decl =>
    match sr.search_interface_declaration p.1 decl with
    | (s, st) => ((s, p.2 ++ [.interfaceDeclaration]), st)
  search_subtype_indication := fun p si =>
    match sr.search_subtype_indication p.1 si with
    | (s, st) => ((s, p.2 ++ [.subtypeIndication]), st)
  search_entity := fun p ent =>
    match sr.search_entity p.1 ent with
    | (s, st) => ((s, p.2 ++ [.entity]), st)
  search_designator_ref := fun p pos designator =>
    match sr.search_designator_ref p.1 pos designator with
    | (s, st) => ((s, p.2 ++ [.designatorRef]), st)
  search_with_pos := fun p pos =>
    match sr.search_with_pos p.1 pos with
    | (s, st) => ((s, p.2 ++ [.withPos]), st)
  search_source := fun p source =>
    match sr.search_source p.1 source with
    | (s, st) => ((s, p.2 ++ [.source]), st)

/-! ## Specification-side reference collector

These `refOccs*` functions are written from the words of the spec, not from
the traversal code: the reference collection "returns the full ordered
accumulator (traversal order == document order)": every entity-unit
identifier span equal to the target, and every name-occurrence span whose
resolved reference equals the target, in document order.  They are compared
with `findAllReferences` in the refinement theorem. -/

/-- Spec-side: the occurrence spans contributed by one positioned
designator: its own span when its resolved reference equals the target. -/
def refOccsPosDesignator (target : SrcPos) (d : WithPos (WithRef Designator)) :
    List SrcPos :=
  match d.item.reference with
  | some reference => if reference = target then [d.pos] else []
  | none => []

/-- Spec-side: occurrences inside a selected name, prefix before suffix. -/
def refOccsSelectedName (target : SrcPos) : SelectedNameP → List SrcPos
  | .Selected _pos pfx dsg =>
      refOccsSelectedName target pfx ++ refOccsPosDesignator target dsg
  | .Designator pos d =>
      match d.reference with
      | some reference => if reference = target then [pos] else []
      | none => []

/-- Spec-side: occurrences inside a subtype indication (its type mark). -/
def refOccsSubtypeIndication (target : SrcPos) (si : SubtypeIndication) :
    List SrcPos :=
  refOccsSelectedName target si.type_mark

/-- Spec-side: occurrences inside an optional subtype indication. -/
def refOccsOptionSubtypeIndication (target : SrcPos) :
    Option SubtypeIndication → List SrcPos
  | none => []
  | some si => refOccsSubtypeIndication target si

/-- Spec-side: occurrences inside record elements, in order. -/
def refOccsElementList (target : SrcPos) : List ElementDeclaration → List SrcPos
  | [] => []
  | elem :: rest =>
      refOccsSubtypeIndication target elem.subtype ++ refOccsElementList target rest

mutual

/-- Spec-side: occurrences inside a subprogram declaration. -/
def refOccsSubprogramDeclaration (target : SrcPos) :
    SubprogramDeclaration → List SrcPos
  | .Function decl => refOccsFunctionSpecification target decl
  | .Procedure decl => refOccsProcedureSpecification target decl

/-- Spec-side: occurrences inside a procedure specification. -/
def refOccsProcedureSpecification (target : SrcPos) :
    ProcedureSpecification → List SrcPos
  | .mk parameter_list => refOccsInterfaceList target parameter_list

/-- Spec-side: occurrences inside a function specification: parameters,
then return type. -/
def refOccsFunctionSpecification (target : SrcPos) :
    FunctionSpecification → List SrcPos
  | .mk parameter_list return_type =>
      refOccsInterfaceList target parameter_list
        ++ refOccsSelectedName target return_type

/-- Spec-side: occurrences inside one interface declaration. -/
def refOccsInterfaceDeclaration (target : SrcPos) :
    InterfaceDeclaration → List SrcPos
  | .Object obj => refOccsSubtypeIndication target obj.subtype_indication
  | .Subprogram sub => refOccsSubprogramDeclaration target sub
  | .Other => []

/-- Spec-side: occurrences inside an interface list, in order. -/
def refOccsInterfaceList (target : SrcPos) :
    List InterfaceDeclaration → List SrcPos
  | [] => []
  | decl :: rest =>
      refOccsInterfaceDeclaration target decl ++ refOccsInterfaceList target rest

end

/-- Spec-side: occurrences inside protected-type items, in order. -/
def refOccsProtectedItemList (target : SrcPos) :
    List ProtectedTypeDeclarativeItem → List SrcPos
  | [] => []
  | .Subprogram sub :: rest =>
      refOccsSubprogramDeclaration target sub
        ++ refOccsProtectedItemList target rest

mutual

/-- Spec-side: occurrences inside a type declaration, by definition
variant. -/
def refOccsTypeDeclaration (target : SrcPos) : TypeDeclaration → List SrcPos
  | .mk _ (.ProtectedBody body_decl) => refOccsDeclarationList target body_decl
  | .mk _ (.Protected items) => refOccsProtectedItemList target items
  | .mk _ (.Record element_decls) => refOccsElementList target element_decls
  | .mk _ (.Access subtype_indication) =>
      refOccsSubtypeIndication target subtype_indication
  | .mk _ (.Array subtype_indication) =>
      refOccsSubtypeIndication target subtype_indication
  | .mk _ (.Subtype subtype_indication) =>
      refOccsSubtypeIndication target subtype_indication
  | .mk _ .Other => []

/-- Spec-side: occurrences inside one declaration, by variant. -/
def refOccsDeclaration (target : SrcPos) : Declaration → List SrcPos
  | .Object object => refOccsSubtypeIndication target object.subtype_indication
  | .TypeDecl typ => refOccsTypeDeclaration target typ
  | .SubprogramBody specification declarations =>
      refOccsSubprogramDeclaration target specification
        ++ refOccsDeclarationList target declarations
  | .SubprogramDecl sub => refOccsSubprogramDeclaration target sub
  | .Attribute (.Declaration type_mark) => refOccsSelectedName target type_mark
  | .Attribute .Specification => []
  | .Alias decl => refOccsOptionSubtypeIndication target decl.subtype_indication
  | .Other => []

/-- Spec-side: occurrences inside a declaration list, in order. -/
def refOccsDeclarationList (target : SrcPos) : List Declaration → List SrcPos
  | [] => []
  | decl :: rest =>
      refOccsDeclaration target decl ++ refOccsDeclarationList target rest

end

mutual

/-- Spec-side: occurrences inside one concurrent statement, by variant. -/
def refOccsConcurrentStatement (target : SrcPos) :
    LabeledConcurrentStatement → List SrcPos
  | .mk (.Block block_decl block_statements) =>
      refOccsDeclarationList target block_decl
        ++ refOccsConcurrentList target block_statements
  | .mk (.Process process_decl _process_statements) =>
      refOccsDeclarationList target process_decl
  | .mk (.ForGenerate body) => refOccsGenerateBody target body
  | .mk (.IfGenerate conditionals else_item) =>
      refOccsGenerateBodyList target conditionals
        ++ refOccsOptionGenerateBody target else_item
  | .mk (.CaseGenerate alternatives) =>
      refOccsGenerateBodyList target alternatives
  | .mk .Other => []

/-- Spec-side: occurrences inside a concurrent statement list, in order. -/
def refOccsConcurrentList (target : SrcPos) :
    List LabeledConcurrentStatement → List SrcPos
  | [] => []
  | stmt :: rest =>
      refOccsConcurrentStatement target stmt
        ++ refOccsConcurrentList target rest

/-- Spec-side: occurrences inside a generate body: declarations, then
statements. -/
def refOccsGenerateBody (target : SrcPos) : GenerateBody → List SrcPos
  | .mk decl statements =>
      refOccsDeclarationList target decl
        ++ refOccsConcurrentList target statements

/-- Spec-side: occurrences inside generate conditionals / alternatives. -/
def refOccsGenerateBodyList (target : SrcPos) : List GenerateBody → List SrcPos
  | [] => []
  | body :: rest =>
      refOccsGenerateBody target body ++ refOccsGenerateBodyList target rest

/-- Spec-side: occurrences inside an optional generate body. -/
def refOccsOptionGenerateBody (target : SrcPos) :
    Option GenerateBody → List SrcPos
  | none => []
  | some body => refOccsGenerateBody target body

end

/-- Spec-side: occurrences inside an optional interface list. -/
def refOccsOptionInterfaceList (target : SrcPos) :
    Option (List InterfaceDeclaration) → List SrcPos
  | none => []
  | some decls => refOccsInterfaceList target decls

/-- Spec-side: all occurrences of the target in an entity unit, in document
order: the entity's own identifier span when it equals the target, then the
generics, ports, declarations and statements. -/
def refOccsEntityUnit (target : SrcPos) (u : EntityUnit) : List SrcPos :=
  (if u.ident.pos = target then [u.ident.pos] else [])
    ++ refOccsOptionInterfaceList target u.unit.generic_clause
    ++ refOccsOptionInterfaceList target u.unit.port_clause
    ++ refOccsDeclarationList target u.unit.decl
    ++ refOccsConcurrentList target u.unit.statements

/-- Spec-side: all occurrences of the target in an architecture unit. -/
def refOccsArchitectureUnit (target : SrcPos) (u : ArchitectureUnit) :
    List SrcPos :=
  refOccsDeclarationList target u.unit.decl
    ++ refOccsConcurrentList target u.unit.statements

/-- Spec-side: all occurrences of the target in a package unit. -/
def refOccsPackageUnit (target : SrcPos) (u : PackageUnit) : List SrcPos :=
  refOccsOptionInterfaceList target u.unit.generic_clause
    ++ refOccsDeclarationList target u.unit.decl

/-- Spec-side: all occurrences of the target in a package body unit. -/
def refOccsPackageBodyUnit (target : SrcPos) (u : PackageBodyUnit) :
    List SrcPos :=
  refOccsDeclarationList target u.unit.decl

/-- Spec-side: all occurrences of the target in a package instantiation
unit. -/
def refOccsPackageInstanceUnit (target : SrcPos) (u : PackageInstanceUnit) :
    List SrcPos :=
  refOccsSelectedName target u.unit.package_name

/-- Spec-side: all occurrences of the target in a configuration unit. -/
def refOccsConfigurationUnit (target : SrcPos) (u : ConfigurationUnit) :
    List SrcPos :=
  refOccsSelectedName target u.unit.entity_name

/-! ## Concrete example nodes used by witnesses and counterexamples -/

/-- The declaration span of the example generic `G`. -/
def exGDeclPos : SrcPos := ⟨0, 10, 11⟩

/-- The span of the single use of the example generic `G`. -/
def exGUsePos : SrcPos := ⟨0, 30, 31⟩

/-- The identifier span of the example entity. -/
def exEntIdentPos : SrcPos := ⟨0, 1, 2⟩

/-- An entity with one generic `G` declared at `exGDeclPos` and one name
occurrence at `exGUsePos` whose resolved reference is `exGDeclPos` (a use
of `G`), inside an object declaration's subtype mark. -/
def exEntity : EntityUnit :=
  ⟨0, ⟨⟨5, exEntIdentPos⟩,
    some [.Object ⟨⟨7, exGDeclPos⟩, ⟨.Designator ⟨0, 12, 15⟩ ⟨1, none⟩⟩⟩],
    none,
    [.Object ⟨⟨8, ⟨0, 20, 21⟩⟩, ⟨.Designator exGUsePos ⟨2, some exGDeclPos⟩⟩⟩],
    []⟩⟩

/-! ## Helper lemmas: the reference-collection traversal appends exactly
the spec-side occurrences and always completes with `NotFound` -/

@[simp] theorem farHook_concurrent (target : SrcPos) (s : List SrcPos)
    (stmt : LabeledConcurrentStatement) :
    (findAllReferencesSearcher target).search_labeled_concurrent_statement s stmt
      = (s, .NotFinished) := rfl

@[simp] theorem farHook_sequential (target : SrcPos) (s : List SrcPos)
    (stmt : LabeledSequentialStatement) :
    (findAllReferencesSearcher target).search_labeled_sequential_statement s stmt
      = (s, .NotFinished) := rfl

@[simp] theorem farHook_declaration (target : SrcPos) (s : List SrcPos)
    (decl : Declaration) :
    (findAllReferencesSearcher target).search_declaration s decl
      = (s, .NotFinished) := rfl

@[simp] theorem farHook_type_declaration (target : SrcPos) (s : List SrcPos)
    (decl : TypeDeclaration) :
    (findAllReferencesSearcher target).search_type_declaration s decl
      = (s, .NotFinished) := rfl

@[simp] theorem farHook_interface_declaration (target : SrcPos)
    (s : List SrcPos) (decl : InterfaceDeclaration) :
    (findAllReferencesSearcher target).search_interface_declaration s decl
      = (s, .NotFinished) := rfl

@[simp] theorem farHook_subtype_indication (target : SrcPos) (s : List SrcPos)
    (si : SubtypeIndication) :
    (findAllReferencesSearcher target).search_subtype_indication s si
      = (s, .NotFinished) := rfl

@[simp] theorem farHook_with_pos (target : SrcPos) (s : List SrcPos)
    (pos : SrcPos) :
    (findAllReferencesSearcher target).search_with_pos s pos
      = (s, .NotFinished) := rfl

@[simp] theorem farHook_source (target : SrcPos) (s : List SrcPos)
    (source : Source) :
    (findAllReferencesSearcher target).search_source s source
      = (s, .NotFinished) := rfl

@[simp] theorem farHook_entity (target : SrcPos) (s : List SrcPos)
    (ent : EntityUnit) :
    (findAllReferencesSearcher target).search_entity s ent
      = (if ent.ident.pos = target then s ++ [ent.ident.pos] else s,
         .NotFinished) := rfl

@[simp] theorem farHook_designator_ref (target : SrcPos) (s : List SrcPos)
    (pos : SrcPos) (designator : WithRef Designator) :
    (findAllReferencesSearcher target).search_designator_ref s pos designator
      = (match designator.reference with
         | some reference =>
             if reference = target then s ++ [pos] else s
         | none => s, .NotFinished) := rfl

theorem far_searchSequentialStatement (target : SrcPos) (s : List SrcPos)
    (stmt : LabeledSequentialStatement) :
    searchSequentialStatement (findAllReferencesSearcher target) s stmt
      = (s, .NotFound) := rfl

theorem far_searchSequentialList (target : SrcPos) (s : List SrcPos)
    (stmts : List LabeledSequentialStatement) :
    searchSequentialList (findAllReferencesSearcher target) s stmts
      = (s, .NotFound) := by
  induction stmts generalizing s with
  | nil => rfl
  | cons stmt rest ih =>
      simp [searchSequentialList, far_searchSequentialStatement, thenIfNotFound, ih]

theorem far_searchPosDesignator (target : SrcPos) (s : List SrcPos)
    (d : WithPos (WithRef Designator)) :
    searchPosDesignator (findAllReferencesSearcher target) s d
      = (s ++ refOccsPosDesignator target d, .NotFound) := by
  cases h : d.item.reference with
  | none =>
      simp [searchPosDesignator, refOccsPosDesignator, orElseS, orNotFoundS,
        h]
  | some reference =>
      by_cases hr : reference = target <;>
        simp [searchPosDesignator, refOccsPosDesignator, orElseS, orNotFoundS,
          h, hr]

theorem far_searchSelectedName (target : SrcPos) (s : List SrcPos)
    (name : SelectedNameP) :
    searchSelectedName (findAllReferencesSearcher target) s name
      = (s ++ refOccsSelectedName target name, .NotFound) := by
  induction name generalizing s with
  | Selected pos pfx dsg ih =>
      simp [searchSelectedName, refOccsSelectedName, ih, thenIfNotFound,
        far_searchPosDesignator]
  | Designator pos d =>
      cases h : d.reference with
      | none =>
          simp [searchSelectedName, refOccsSelectedName, orNotFoundS, orElseS,
            h]
      | some reference =>
          by_cases hr : reference = target <;>
            simp [searchSelectedName, refOccsSelectedName, orNotFoundS, orElseS,
              h, hr]

theorem far_searchSubtypeIndication (target : SrcPos) (s : List SrcPos)
    (si : SubtypeIndication) :
    searchSubtypeIndication (findAllReferencesSearcher target) s si
      = (s ++ refOccsSubtypeIndication target si, .NotFound) := by
  simp [searchSubtypeIndication, refOccsSubtypeIndication, orElseS,
    thenIfNotFound, far_searchSelectedName]

theorem far_searchOptionSubtypeIndication (target : SrcPos) (s : List SrcPos)
    (si : Option SubtypeIndication) :
    searchOptionSubtypeIndication (findAllReferencesSearcher target) s si
      = (s ++ refOccsOptionSubtypeIndication target si, .NotFound) := by
  cases si with
  | none => simp [searchOptionSubtypeIndication, refOccsOptionSubtypeIndication]
  | some si =>
      simp [searchOptionSubtypeIndication, refOccsOptionSubtypeIndication,
        thenIfNotFound, far_searchSubtypeIndication]

theorem far_searchElementList (target : SrcPos) (s : List SrcPos)
    (elems : List ElementDeclaration) :
    searchElementList (findAllReferencesSearcher target) s elems
      = (s ++ refOccsElementList target elems, .NotFound) := by
  induction elems generalizing s with
  | nil => simp [searchElementList, refOccsElementList]
  | cons elem rest ih =>
      simp [searchElementList, refOccsElementList, thenIfNotFound,
        far_searchSubtypeIndication, ih]

mutual

theorem far_searchSubprogramDeclaration (target : SrcPos) (s : List SrcPos)
    (decl : SubprogramDeclaration) :
    searchSubprogramDeclaration (findAllReferencesSearcher target) s decl
      = (s ++ refOccsSubprogramDeclaration target decl, .NotFound) := by
  cases decl with
  | Function decl =>
      simp [searchSubprogramDeclaration, refOccsSubprogramDeclaration,
        thenIfNotFound, far_searchFunctionSpecification target s decl]
  | Procedure decl =>
      simp [searchSubprogramDeclaration, refOccsSubprogramDeclaration,
        thenIfNotFound, far_searchProcedureSpecification target s decl]

theorem far_searchProcedureSpecification (target : SrcPos) (s : List SrcPos)
    (decl : ProcedureSpecification) :
    searchProcedureSpecification (findAllReferencesSearcher target) s decl
      = (s ++ refOccsProcedureSpecification target decl, .NotFound) := by
  cases decl with
  | mk parameter_list =>
      simp [searchProcedureSpecification, refOccsProcedureSpecification,
        far_searchInterfaceList target s parameter_list]

theorem far_searchFunctionSpecification (target : SrcPos) (s : List SrcPos)
    (decl : FunctionSpecification) :
    searchFunctionSpecification (findAllReferencesSearcher target) s decl
      = (s ++ refOccsFunctionSpecification target decl, .NotFound) := by
  cases decl with
  | mk parameter_list return_type =>
      simp [searchFunctionSpecification, refOccsFunctionSpecification,
        thenIfNotFound, far_searchInterfaceList target s parameter_list,
        far_searchSelectedName]

theorem far_searchInterfaceDeclaration (target : SrcPos) (s : List SrcPos)
    (decl : InterfaceDeclaration) :
    searchInterfaceDeclaration (findAllReferencesSearcher target) s decl
      = (s ++ refOccsInterfaceDeclaration target decl, .NotFound) := by
  cases decl with
  | Object obj =>
      simp [searchInterfaceDeclaration, refOccsInterfaceDeclaration, orElseS,
        thenIfNotFound, far_searchSubtypeIndication]
  | Subprogram sub =>
      simp [searchInterfaceDeclaration, refOccsInterfaceDeclaration, orElseS,
        thenIfNotFound,
        far_searchSubprogramDeclaration target s sub]
  | Other =>
      simp [searchInterfaceDeclaration, refOccsInterfaceDeclaration, orElseS]

theorem far_searchInterfaceList (target : SrcPos) (s : List SrcPos)
    (decls : List InterfaceDeclaration) :
    searchInterfaceList (findAllReferencesSearcher target) s decls
      = (s ++ refOccsInterfaceList target decls, .NotFound) := by
  cases decls with
  | nil => simp [searchInterfaceList, refOccsInterfaceList]
  | cons decl rest =>
      simp [searchInterfaceList, refOccsInterfaceList, thenIfNotFound,
        far_searchInterfaceDeclaration target s decl,
        far_searchInterfaceList target
          (s ++ refOccsInterfaceDeclaration target decl) rest]

end

theorem far_searchProtectedItemList (target : SrcPos) (s : List SrcPos)
    (items : List ProtectedTypeDeclarativeItem) :
    searchProtectedItemList (findAllReferencesSearcher target) s items
      = (s ++ refOccsProtectedItemList target items, .NotFound) := by
  induction items generalizing s with
  | nil => simp [searchProtectedItemList, refOccsProtectedItemList]
  | cons item rest ih =>
      cases item with
      | Subprogram sub =>
          simp [searchProtectedItemList, refOccsProtectedItemList,
            thenIfNotFound, far_searchSubprogramDeclaration, ih]

mutual

theorem far_searchTypeDeclaration (target : SrcPos) (s : List SrcPos)
    (decl : TypeDeclaration) :
    searchTypeDeclaration (findAllReferencesSearcher target) s decl
      = (s ++ refOccsTypeDeclaration target decl, .NotFound) := by
  cases decl with
  | mk ident defn =>
      cases defn with
      | ProtectedBody body_decl =>
          simp [searchTypeDeclaration, refOccsTypeDeclaration, orElseS,
            thenIfNotFound,
            far_searchDeclarationList target s body_decl]
      | Protected items =>
          simp [searchTypeDeclaration, refOccsTypeDeclaration, orElseS,
            thenIfNotFound,
            far_searchProtectedItemList]
      | Record element_decls =>
          simp [searchTypeDeclaration, refOccsTypeDeclaration, orElseS,
            thenIfNotFound, far_searchElementList]
      | Access subtype_indication =>
          simp [searchTypeDeclaration, refOccsTypeDeclaration, orElseS,
            thenIfNotFound,
            far_searchSubtypeIndication]
      | Array subtype_indication =>
          simp [searchTypeDeclaration, refOccsTypeDeclaration, orElseS,
            thenIfNotFound,
            far_searchSubtypeIndication]
      | Subtype subtype_indication =>
          simp [searchTypeDeclaration, refOccsTypeDeclaration, orElseS,
            thenIfNotFound,
            far_searchSubtypeIndication]
      | Other =>
          simp [searchTypeDeclaration, refOccsTypeDeclaration, orElseS]

theorem far_searchDeclaration (target : SrcPos) (s : List SrcPos)
    (decl : Declaration) :
    searchDeclaration (findAllReferencesSearcher target) s decl
      = (s ++ refOccsDeclaration target decl, .NotFound) := by
  cases decl with
  | Object object =>
      simp [searchDeclaration, refOccsDeclaration, orElseS,
        thenIfNotFound, far_searchSubtypeIndication]
  | TypeDecl typ =>
      simp [searchDeclaration, refOccsDeclaration, orElseS,
        thenIfNotFound,
        far_searchTypeDeclaration target s typ]
  | SubprogramBody specification declarations =>
      simp [searchDeclaration, refOccsDeclaration, orElseS,
        thenIfNotFound,
        far_searchSubprogramDeclaration,
        far_searchDeclarationList target
          (s ++ refOccsSubprogramDeclaration target specification) declarations]
  | SubprogramDecl sub =>
      simp [searchDeclaration, refOccsDeclaration, orElseS,
        thenIfNotFound,
        far_searchSubprogramDeclaration]
  | Attribute a =>
      cases a with
      | Declaration type_mark =>
          simp [searchDeclaration, refOccsDeclaration, orElseS,
            thenIfNotFound, far_searchSelectedName]
      | Specification =>
          simp [searchDeclaration, refOccsDeclaration, orElseS]
  | Alias decl =>
      simp [searchDeclaration, refOccsDeclaration, orElseS,
        thenIfNotFound,
        far_searchOptionSubtypeIndication]
  | Other =>
      simp [searchDeclaration, refOccsDeclaration, orElseS]

theorem far_searchDeclarationList (target : SrcPos) (s : List SrcPos)
    (decls : List Declaration) :
    searchDeclarationList (findAllReferencesSearcher target) s decls
      = (s ++ refOccsDeclarationList target decls, .NotFound) := by
  cases decls with
  | nil => simp [searchDeclarationList, refOccsDeclarationList]
  | cons decl rest =>
      simp [searchDeclarationList, refOccsDeclarationList, thenIfNotFound,
        far_searchDeclaration target s decl,
        far_searchDeclarationList target
          (s ++ refOccsDeclaration target decl) rest]

end

mutual

theorem far_searchConcurrentStatement (target : SrcPos) (s : List SrcPos)
    (stmt : LabeledConcurrentStatement) :
    searchConcurrentStatement (findAllReferencesSearcher target) s stmt
      = (s ++ refOccsConcurrentStatement target stmt, .NotFound) := by
  cases stmt with
  | mk statement =>
      cases statement with
      | Block block_decl block_statements =>
          simp [searchConcurrentStatement, refOccsConcurrentStatement, orElseS,
            thenIfNotFound,
            far_searchDeclarationList,
            far_searchConcurrentList target
              (s ++ refOccsDeclarationList target block_decl) block_statements]
      | Process process_decl process_statements =>
          simp [searchConcurrentStatement, refOccsConcurrentStatement, orElseS,
            thenIfNotFound,
            far_searchDeclarationList, far_searchSequentialList]
      | ForGenerate body =>
          simp [searchConcurrentStatement, refOccsConcurrentStatement, orElseS,
            far_searchGenerateBody target s body]
      | IfGenerate conditionals else_item =>
          simp [searchConcurrentStatement, refOccsConcurrentStatement, orElseS,
            thenIfNotFound,
            far_searchGenerateBodyList target s conditionals,
            far_searchOptionGenerateBody target
              (s ++ refOccsGenerateBodyList target conditionals) else_item]
      | CaseGenerate alternatives =>
          simp [searchConcurrentStatement, refOccsConcurrentStatement, orElseS,
            thenIfNotFound,
            far_searchGenerateBodyList target s alternatives]
      | Other =>
          simp [searchConcurrentStatement, refOccsConcurrentStatement, orElseS]

theorem far_searchConcurrentList (target : SrcPos) (s : List SrcPos)
    (stmts : List LabeledConcurrentStatement) :
    searchConcurrentList (findAllReferencesSearcher target) s stmts
      = (s ++ refOccsConcurrentList target stmts, .NotFound) := by
  cases stmts with
  | nil => simp [searchConcurrentList, refOccsConcurrentList]
  | cons stmt rest =>
      simp [searchConcurrentList, refOccsConcurrentList, thenIfNotFound,
        far_searchConcurrentStatement target s stmt,
        far_searchConcurrentList target
          (s ++ refOccsConcurrentStatement target stmt) rest]

theorem far_searchGenerateBody (target : SrcPos) (s : List SrcPos)
    (body : GenerateBody) :
    searchGenerateBody (findAllReferencesSearcher target) s body
      = (s ++ refOccsGenerateBody target body, .NotFound) := by
  cases body with
  | mk decl statements =>
      simp [searchGenerateBody, refOccsGenerateBody, thenIfNotFound,
        far_searchDeclarationList,
        far_searchConcurrentList target
          (s ++ refOccsDeclarationList target decl) statements]

theorem far_searchGenerateBodyList (target : SrcPos) (s : List SrcPos)
    (bodies : List GenerateBody) :
    searchGenerateBodyList (findAllReferencesSearcher target) s bodies
      = (s ++ refOccsGenerateBodyList target bodies, .NotFound) := by
  cases bodies with
  | nil => simp [searchGenerateBodyList, refOccsGenerateBodyList]
  | cons body rest =>
      simp [searchGenerateBodyList, refOccsGenerateBodyList, thenIfNotFound,
        far_searchGenerateBody target s body,
        far_searchGenerateBodyList target
          (s ++ refOccsGenerateBody target body) rest]

theorem far_searchOptionGenerateBody (target : SrcPos) (s : List SrcPos)
    (body : Option GenerateBody) :
    searchOptionGenerateBody (findAllReferencesSearcher target) s body
      = (s ++ refOccsOptionGenerateBody target body, .NotFound) := by
  cases body with
  | none => simp [searchOptionGenerateBody, refOccsOptionGenerateBody]
  | some body =>
      simp [searchOptionGenerateBody, refOccsOptionGenerateBody, thenIfNotFound,
        far_searchGenerateBody target s body]

end

theorem far_searchOptionInterfaceList (target : SrcPos) (s : List SrcPos)
    (decls : Option (List InterfaceDeclaration)) :
    searchOptionInterfaceList (findAllReferencesSearcher target) s decls
      = (s ++ refOccsOptionInterfaceList target decls, .NotFound) := by
  cases decls with
  | none => simp [searchOptionInterfaceList, refOccsOptionInterfaceList]
  | some decls =>
      simp [searchOptionInterfaceList, refOccsOptionInterfaceList,
        thenIfNotFound, far_searchInterfaceList]

theorem far_searchEntityUnit (target : SrcPos) (s : List SrcPos)
    (u : EntityUnit) :
    searchEntityUnit (findAllReferencesSearcher target) s u
      = (s ++ refOccsEntityUnit target u, .NotFound) := by
  by_cases h : u.unit.ident.pos = target <;>
    simp [searchEntityUnit, refOccsEntityUnit, orElseS,
      thenIfNotFound, EntityUnit.ident, h,
      far_searchOptionInterfaceList, far_searchDeclarationList,
      far_searchConcurrentList]

theorem far_searchArchitectureUnit (target : SrcPos) (s : List SrcPos)
    (u : ArchitectureUnit) :
    searchArchitectureUnit (findAllReferencesSearcher target) s u
      = (s ++ refOccsArchitectureUnit target u, .NotFound) := by
  simp [searchArchitectureUnit, refOccsArchitectureUnit, orElseS,
    thenIfNotFound, far_searchDeclarationList, far_searchConcurrentList]

theorem far_searchPackageUnit (target : SrcPos) (s : List SrcPos)
    (u : PackageUnit) :
    searchPackageUnit (findAllReferencesSearcher target) s u
      = (s ++ refOccsPackageUnit target u, .NotFound) := by
  simp [searchPackageUnit, refOccsPackageUnit, orElseS, thenIfNotFound,
    far_searchOptionInterfaceList, far_searchDeclarationList]

theorem far_searchPackageBodyUnit (target : SrcPos) (s : List SrcPos)
    (u : PackageBodyUnit) :
    searchPackageBodyUnit (findAllReferencesSearcher target) s u
      = (s ++ refOccsPackageBodyUnit target u, .NotFound) := by
  simp [searchPackageBodyUnit, refOccsPackageBodyUnit, orElseS,
    far_searchDeclarationList]

theorem far_searchPackageInstanceUnit (target : SrcPos) (s : List SrcPos)
    (u : PackageInstanceUnit) :
    searchPackageInstanceUnit (findAllReferencesSearcher target) s u
      = (s ++ refOccsPackageInstanceUnit target u, .NotFound) := by
  simp [searchPackageInstanceUnit, refOccsPackageInstanceUnit, orElseS,
    far_searchSelectedName]

theorem far_searchConfigurationUnit (target : SrcPos) (s : List SrcPos)
    (u : ConfigurationUnit) :
    searchConfigurationUnit (findAllReferencesSearcher target) s u
      = (s ++ refOccsConfigurationUnit target u, .NotFound) := by
  simp [searchConfigurationUnit, refOccsConfigurationUnit, orElseS,
    far_searchSelectedName]

/-- C3: the containment test `is_inside` holds iff `s ≤ c ≤ e`, with both
boundaries inclusive, and fails at `c = s - 1` and `c = e + 1`. -/
theorem claim_C3 (qsrc src s e c : Nat) (hse : s ≤ e) (hs : 0 < s) :
    (ItemAtCursor.is_inside ⟨qsrc, c⟩ ⟨src, s, e⟩ = true ↔ s ≤ c ∧ c ≤ e)
    ∧ ItemAtCursor.is_inside ⟨qsrc, s⟩ ⟨src, s, e⟩ = true
    ∧ ItemAtCursor.is_inside ⟨qsrc, e⟩ ⟨src, s, e⟩ = true
    ∧ ItemAtCursor.is_inside ⟨qsrc, s - 1⟩ ⟨src, s, e⟩ = false
    ∧ ItemAtCursor.is_inside ⟨qsrc, e + 1⟩ ⟨src, s, e⟩ = false := by
  refine ⟨?_, ?_, ?_, ?_, ?_⟩
  · simp [ItemAtCursor.is_inside]
  · simp [ItemAtCursor.is_inside, hse]
  · simp [ItemAtCursor.is_inside, hse]
  · simp only [ItemAtCursor.is_inside, Bool.and_eq_false_iff,
      decide_eq_false_iff_not, not_le]
    exact Or.inl (Nat.sub_lt hs Nat.one_pos)
  · simp [ItemAtCursor.is_inside]

/-- Witness for C3 at the concrete span `[2, 5]`. -/
theorem claim_C3_witness :
    2 ≤ 5 ∧ 0 < 2
    ∧ ((ItemAtCursor.is_inside ⟨0, 3⟩ ⟨0, 2, 5⟩ = true ↔ 2 ≤ 3 ∧ 3 ≤ 5)
      ∧ ItemAtCursor.is_inside ⟨0, 2⟩ ⟨0, 2, 5⟩ = true
      ∧ ItemAtCursor.is_inside ⟨0, 5⟩ ⟨0, 2, 5⟩ = true
      ∧ ItemAtCursor.is_inside ⟨0, 2 - 1⟩ ⟨0, 2, 5⟩ = false
      ∧ ItemAtCursor.is_inside ⟨0, 5 + 1⟩ ⟨0, 2, 5⟩ = false) :=
  ⟨by decide, by decide, claim_C3 0 0 2 5 3 (by decide) (by decide)⟩

/-- C4: `or_else` yields the inner result of a `Finished` state without
consulting the fallback; on `NotFinished` it yields the fallback's result;
and `or_not_found` behaves as `or_else` with the constant `NotFound`
fallback. -/
theorem claim_C4 :
    (∀ (T : Type) (r : SearchResult T) (f : Unit → SearchResult T),
       SearchState.or_else (.Finished r) f = r)
    ∧ (∀ (T : Type) (f : Unit → SearchResult T),
       SearchState.or_else .NotFinished f = f ())
    ∧ (∀ (T : Type) (st : SearchState T),
       st.or_not_found = st.or_else (fun _ => .NotFound))
    ∧ (∀ (T : Type) (r : SearchResult T),
       SearchState.or_not_found (.Finished r) = r)
    ∧ (∀ (T : Type),
       SearchState.or_not_found (T := T) .NotFinished = .NotFound) := by
  refine ⟨fun T r f => rfl, fun T f => rfl, fun T st => rfl,
    fun T r => rfl, fun T => rfl⟩


/-- C1 counterexample: in `exEntity` the generic `G` is declared at
`exGDeclPos` and referenced once, at `exGUsePos`; the claim says
`FindAllReferences` returns the declaration plus the use
(`[exGDeclPos, exGUsePos]`), but the code returns only the use: no hook
ever appends a generic's own declaration site (only the entity hook appends
declaration sites). -/
theorem claim_C1_counterexample :
    findAllReferences exGDeclPos exEntity = [exGUsePos]
    ∧ findAllReferences exGDeclPos exEntity ≠ [exGDeclPos, exGUsePos] := by
  constructor
  · rfl
  · decide

/-- C1 (amended): `FindAllReferences` with target `D` on an entity root
returns, in document (traversal) order, exactly the entity identifier spans
equal to `D` together with the name-occurrence spans whose resolved
reference equals `D` — the spec-side collector `refOccsEntityUnit`.
Declaration sites other than an entity unit identifier (e.g. a generic's
own identifier) are not collected, so a target declared as a generic and
used `N` times yields `N` spans, not `N+1`; a target that is the entity's
own identifier with `N` uses yields `N+1` spans.  Occurrences and
declarations whose spans differ from `D` never contribute. -/
theorem claim_C1 (target : SrcPos) (u : EntityUnit) :
    findAllReferences target u = refOccsEntityUnit target u := by
  simp [findAllReferences, far_searchEntityUnit]

/-- C2: when the enclosing span of a name occurrence contains the cursor,
the cursor-lookup designator-reference hook finishes the subtree either
way: `Finished (Found r)` when the resolved reference `r` is present,
`Finished NotFound` when it is absent. -/
theorem claim_C2 (q : ItemAtCursor) (pos : SrcPos) (d : WithRef Designator)
    (h : q.is_inside pos = true) :
    (itemAtCursorSearcher q).search_designator_ref () pos d
      = ((), .Finished (match d.reference with
          | some reference => .Found reference
          | none => .NotFound)) := by
  cases hr : d.reference <;> simp [itemAtCursorSearcher, h, hr]

/-- Witness for C2: a cursor at offset 5 inside the occurrence span
`[4, 6]`, once with a resolved reference and once without. -/
theorem claim_C2_witness :
    ((⟨0, 5⟩ : ItemAtCursor).is_inside ⟨0, 4, 6⟩ = true
      ∧ (itemAtCursorSearcher ⟨0, 5⟩).search_designator_ref () ⟨0, 4, 6⟩
          ⟨1, some ⟨0, 10, 11⟩⟩ = ((), .Finished (.Found ⟨0, 10, 11⟩)))
    ∧ ((⟨0, 5⟩ : ItemAtCursor).is_inside ⟨0, 4, 6⟩ = true
      ∧ (itemAtCursorSearcher ⟨0, 5⟩).search_designator_ref () ⟨0, 4, 6⟩
          ⟨1, none⟩ = ((), .Finished .NotFound)) :=
  ⟨⟨by decide, claim_C2 ⟨0, 5⟩ ⟨0, 4, 6⟩ ⟨1, some ⟨0, 10, 11⟩⟩ (by decide)⟩,
   ⟨by decide, claim_C2 ⟨0, 5⟩ ⟨0, 4, 6⟩ ⟨1, none⟩ (by decide)⟩⟩


/-- C5: searching an empty statement list, an empty declaration list, or an
absent optional node returns `NotFound` with the searcher state unchanged
(no hook of any searcher is consulted), and searching a design unit whose
source differs from the cursor-lookup query's source returns `NotFound`
with only the source-identity hook invoked (witnessed by the instrumented
hook log). -/
theorem claim_C5 :
    (∀ (σ T : Type) (sr : Searcher σ T) (s : σ),
        searchConcurrentList sr s [] = (s, .NotFound))
    ∧ (∀ (σ T : Type) (sr : Searcher σ T) (s : σ),
        searchSequentialList sr s [] = (s, .NotFound))
    ∧ (∀ (σ T : Type) (sr : Searcher σ T) (s : σ),
        searchDeclarationList sr s [] = (s, .NotFound))
    ∧ (∀ (σ T : Type) (sr : Searcher σ T) (s : σ),
        searchOptionGenerateBody sr s none = (s, .NotFound))
    ∧ (∀ (σ T : Type) (sr : Searcher σ T) (s : σ),
        searchOptionInterfaceList sr s none = (s, .NotFound))
    ∧ (∀ (q : ItemAtCursor) (log : List HookTag) (u : EntityUnit),
        u.source ≠ q.source →
        searchEntityUnit (instrument (itemAtCursorSearcher q)) ((), log) u
          = (((), log ++ [.source]), .NotFound)) := by
  refine ⟨fun σ T sr s => rfl, fun σ T sr s => rfl, fun σ T sr s => rfl,
    fun σ T sr s => rfl, fun σ T sr s => rfl, fun q log u h => ?_⟩
  simp [searchEntityUnit, instrument, itemAtCursorSearcher, orElseS, h]

/-- Witness for C5: a unit in source 1 against a query in source 0; only
the source hook runs and the unit's contents are never visited. -/
theorem claim_C5_witness :
    (1 : Source) ≠ (0 : Source)
    ∧ searchEntityUnit (instrument (itemAtCursorSearcher ⟨0, 0⟩)) ((), [])
        ⟨1, ⟨⟨0, ⟨1, ⟨0, 0⟩⟩⟩, none, none, [], []⟩⟩
        = (((), [.source]), .NotFound) :=
  ⟨by decide,
   claim_C5.2.2.2.2.2 ⟨0, 0⟩ []
     ⟨1, ⟨⟨0, ⟨1, ⟨0, 0⟩⟩⟩, none, none, [], []⟩⟩ (by decide)⟩

/-- C6: on a positioned name occurrence, the bare-span hook of the
cursor-lookup searcher is consulted first; when the span does not contain
the cursor the whole node search ends as `NotFound` with no further hook
invoked in the subtree (hook log extends by `withPos` only); when it does
contain the cursor, descent continues into the designator-reference hook
(log extends by `withPos` then `designatorRef`). -/
theorem claim_C6 (q : ItemAtCursor) (log : List HookTag)
    (d : WithPos (WithRef Designator)) :
    (q.is_inside d.pos = false →
      searchPosDesignator (instrument (itemAtCursorSearcher q)) ((), log) d
        = (((), log ++ [.withPos]), .NotFound))
    ∧ (q.is_inside d.pos = true →
      searchPosDesignator (instrument (itemAtCursorSearcher q)) ((), log) d
        = (((), log ++ [.withPos, .designatorRef]),
           match d.item.reference with
           | some reference => .Found reference
           | none => .NotFound)) := by
  constructor
  · intro h
    simp [searchPosDesignator, instrument, itemAtCursorSearcher, orElseS,
      orNotFoundS, h]
  · intro h
    cases hr : d.item.reference <;>
      simp [searchPosDesignator, instrument, itemAtCursorSearcher, orElseS,
        orNotFoundS, h, hr]

/-- Witness for C6: cursor 5, an occurrence span `[10, 12]` not containing
it (pruned after the bare-span hook alone), and an occurrence span `[4, 6]`
containing it (descent reaches the designator-reference hook). -/
theorem claim_C6_witness :
    ((⟨0, 5⟩ : ItemAtCursor).is_inside ⟨0, 10, 12⟩ = false
      ∧ searchPosDesignator (instrument (itemAtCursorSearcher ⟨0, 5⟩)) ((), [])
          ⟨⟨1, some ⟨0, 20, 21⟩⟩, ⟨0, 10, 12⟩⟩
          = (((), [.withPos]), .NotFound))
    ∧ ((⟨0, 5⟩ : ItemAtCursor).is_inside ⟨0, 4, 6⟩ = true
      ∧ searchPosDesignator (instrument (itemAtCursorSearcher ⟨0, 5⟩)) ((), [])
          ⟨⟨1, some ⟨0, 20, 21⟩⟩, ⟨0, 4, 6⟩⟩
          = (((), [.withPos, .designatorRef]), .Found ⟨0, 20, 21⟩)) :=
  ⟨⟨by decide,
    (claim_C6 ⟨0, 5⟩ [] ⟨⟨1, some ⟨0, 20, 21⟩⟩, ⟨0, 10, 12⟩⟩).1 (by decide)⟩,
   ⟨by decide,
    (claim_C6 ⟨0, 5⟩ [] ⟨⟨1, some ⟨0, 20, 21⟩⟩, ⟨0, 4, 6⟩⟩).2 (by decide)⟩⟩

/-- C7: every hook of the reference-collection searcher — the two
overridden ones and all inherited defaults — answers `NotFinished` on every
input, and consequently a reference-collection traversal never
short-circuits: on every design-unit root the underlying search completes
with `NotFound`, the result being only the accumulated span list. -/
theorem claim_C7 :
    (∀ (target : SrcPos) (s : List SrcPos) (stmt : LabeledConcurrentStatement),
      ((findAllReferencesSearcher target).search_labeled_concurrent_statement
        s stmt).2 = .NotFinished)
    ∧ (∀ (target : SrcPos) (s : List SrcPos) (stmt : LabeledSequentialStatement),
      ((findAllReferencesSearcher target).search_labeled_sequential_statement
        s stmt).2 = .NotFinished)
    ∧ (∀ (target : SrcPos) (s : List SrcPos) (decl : Declaration),
      ((findAllReferencesSearcher target).search_declaration s decl).2
        = .NotFinished)
    ∧ (∀ (target : SrcPos) (s : List SrcPos) (decl : TypeDeclaration),
      ((findAllReferencesSearcher target).search_type_declaration s decl).2
        = .NotFinished)
    ∧ (∀ (target : SrcPos) (s : List SrcPos) (decl : InterfaceDeclaration),
      ((findAllReferencesSearcher target).search_interface_declaration s decl).2
        = .NotFinished)
    ∧ (∀ (target : SrcPos) (s : List SrcPos) (si : SubtypeIndication),
      ((findAllReferencesSearcher target).search_subtype_indication s si).2
        = .NotFinished)
    ∧ (∀ (target : SrcPos) (s : List SrcPos) (ent : EntityUnit),
      ((findAllReferencesSearcher target).search_entity s ent).2 = .NotFinished)
    ∧ (∀ (target : SrcPos) (s : List SrcPos) (pos : SrcPos)
        (d : WithRef Designator),
      ((findAllReferencesSearcher target).search_designator_ref s pos d).2
        = .NotFinished)
    ∧ (∀ (target : SrcPos) (s : List SrcPos) (pos : SrcPos),
      ((findAllReferencesSearcher target).search_with_pos s pos).2
        = .NotFinished)
    ∧ (∀ (target : SrcPos) (s : List SrcPos) (source : Source),
      ((findAllReferencesSearcher target).search_source s source).2
        = .NotFinished)
    ∧ (∀ (target : SrcPos) (s : List SrcPos) (u : EntityUnit),
      (searchEntityUnit (findAllReferencesSearcher target) s u).2 = .NotFound)
    ∧ (∀ (target : SrcPos) (s : List SrcPos) (u : ArchitectureUnit),
      (searchArchitectureUnit (findAllReferencesSearcher target) s u).2
        = .NotFound)
    ∧ (∀ (target : SrcPos) (s : List SrcPos) (u : PackageUnit),
      (searchPackageUnit (findAllReferencesSearcher target) s u).2 = .NotFound)
    ∧ (∀ (target : SrcPos) (s : List SrcPos) (u : PackageBodyUnit),
      (searchPackageBodyUnit (findAllReferencesSearcher target) s u).2
        = .NotFound)
    ∧ (∀ (target : SrcPos) (s : List SrcPos) (u : PackageInstanceUnit),
      (searchPackageInstanceUnit (findAllReferencesSearcher target) s u).2
        = .NotFound)
    ∧ (∀ (target : SrcPos) (s : List SrcPos) (u : ConfigurationUnit),
      (searchConfigurationUnit (findAllReferencesSearcher target) s u).2
        = .NotFound) := by
  refine ⟨fun t s x => rfl, fun t s x => rfl, fun t s x => rfl,
    fun t s x => rfl, fun t s x => rfl, fun t s x => rfl, fun t s x => rfl,
    fun t s p x => rfl, fun t s p => rfl, fun t s x => rfl,
    fun t s u => ?_, fun t s u => ?_, fun t s u => ?_, fun t s u => ?_,
    fun t s u => ?_, fun t s u => ?_⟩
  · rw [far_searchEntityUnit]
  · rw [far_searchArchitectureUnit]
  · rw [far_searchPackageUnit]
  · rw [far_searchPackageBodyUnit]
  · rw [far_searchPackageInstanceUnit]
  · rw [far_searchConfigurationUnit]


/-- C8: with the cursor inside an entity unit's own identifier span (and
the unit in the query's source), cursor lookup on the unit returns `Found`
with exactly that identifier span; and on any type declaration whose
identifier span contains the cursor, the search returns `Found` with that
identifier span. -/
theorem claim_C8 :
    (∀ (q : ItemAtCursor) (u : EntityUnit), u.source = q.source →
      q.is_inside u.ident.pos = true →
      itemAtCursor q u = .Found u.ident.pos)
    ∧ (∀ (q : ItemAtCursor) (decl : TypeDeclaration),
      q.is_inside decl.ident.pos = true →
      searchTypeDeclaration (itemAtCursorSearcher q) () decl
        = ((), .Found decl.ident.pos)) := by
  constructor
  · intro q u hsrc hpos
    simp [itemAtCursor, searchEntityUnit, itemAtCursorSearcher, orElseS,
      hsrc, hpos]
  · intro q decl hpos
    simp [searchTypeDeclaration, itemAtCursorSearcher, orElseS, hpos]

/-- Witness for C8: an entity in source 0 with identifier span `[1, 3]` and
cursor 2, and a type declaration with identifier span `[4, 6]` and
cursor 5. -/
theorem claim_C8_witness :
    ((⟨0, ⟨⟨9, ⟨0, 1, 3⟩⟩, none, none, [], []⟩⟩ : EntityUnit).source = (⟨0, 2⟩ : ItemAtCursor).source
      ∧ (⟨0, 2⟩ : ItemAtCursor).is_inside ⟨0, 1, 3⟩ = true
      ∧ itemAtCursor ⟨0, 2⟩ ⟨0, ⟨⟨9, ⟨0, 1, 3⟩⟩, none, none, [], []⟩⟩
          = .Found ⟨0, 1, 3⟩)
    ∧ ((⟨0, 5⟩ : ItemAtCursor).is_inside ⟨0, 4, 6⟩ = true
      ∧ searchTypeDeclaration (itemAtCursorSearcher ⟨0, 5⟩) ()
          (.mk ⟨3, ⟨0, 4, 6⟩⟩ .Other) = ((), .Found ⟨0, 4, 6⟩)) :=
  ⟨⟨by decide, by decide,
    claim_C8.1 ⟨0, 2⟩ ⟨0, ⟨⟨9, ⟨0, 1, 3⟩⟩, none, none, [], []⟩⟩
      (by decide) (by decide)⟩,
   ⟨by decide,
    claim_C8.2 ⟨0, 5⟩ (.mk ⟨3, ⟨0, 4, 6⟩⟩ .Other) (by decide)⟩⟩

/-- C9: the cursor-lookup type-declaration hook always finishes (it never
answers `NotFinished`); when the type's identifier span does not contain
the cursor the node search ends as `NotFound` with no hook invoked inside
the type's definition (hook log extends by `typeDeclaration` only, whatever
the definition holds); by contrast the entity hook answers `NotFinished`
when the cursor is outside the entity's identifier, letting descent
continue. -/
theorem claim_C9 :
    (∀ (q : ItemAtCursor) (decl : TypeDeclaration), ∃ r,
      (itemAtCursorSearcher q).search_type_declaration () decl
        = ((), .Finished r))
    ∧ (∀ (q : ItemAtCursor) (log : List HookTag) (decl : TypeDeclaration),
      q.is_inside decl.ident.pos = false →
      searchTypeDeclaration (instrument (itemAtCursorSearcher q)) ((), log) decl
        = (((), log ++ [.typeDeclaration]), .NotFound))
    ∧ (∀ (q : ItemAtCursor) (ent : EntityUnit),
      q.is_inside ent.ident.pos = false →
      (itemAtCursorSearcher q).search_entity () ent = ((), .NotFinished)) := by
  refine ⟨fun q decl => ?_, fun q log decl h => ?_, fun q ent h => ?_⟩
  · by_cases h : q.is_inside decl.ident.pos = true
    · exact ⟨.Found decl.ident.pos, by simp [itemAtCursorSearcher, h]⟩
    · exact ⟨.NotFound, by simp [itemAtCursorSearcher, h]⟩
  · simp [searchTypeDeclaration, instrument, itemAtCursorSearcher, orElseS, h]
  · simp [itemAtCursorSearcher, h]

/-- Witness for C9: a record type declaration whose identifier span
`[4, 6]` does not contain cursor 9 — the search is pruned at the hook and
its record element (which holds a name occurrence) is never offered to any
hook; the same cursor leaves the entity hook undecided. -/
theorem claim_C9_witness :
    ((⟨0, 9⟩ : ItemAtCursor).is_inside ⟨0, 4, 6⟩ = false
      ∧ searchTypeDeclaration (instrument (itemAtCursorSearcher ⟨0, 9⟩)) ((), [])
          (.mk ⟨3, ⟨0, 4, 6⟩⟩
            (.Record [⟨⟨4, ⟨0, 7, 8⟩⟩,
              ⟨.Designator ⟨0, 8, 10⟩ ⟨1, some ⟨0, 0, 1⟩⟩⟩⟩]))
          = (((), [.typeDeclaration]), .NotFound))
    ∧ ((⟨0, 9⟩ : ItemAtCursor).is_inside ⟨0, 1, 3⟩ = false
      ∧ (itemAtCursorSearcher ⟨0, 9⟩).search_entity ()
          ⟨0, ⟨⟨9, ⟨0, 1, 3⟩⟩, none, none, [], []⟩⟩ = ((), .NotFinished)) :=
  ⟨⟨by decide,
    claim_C9.2.1 ⟨0, 9⟩ []
      (.mk ⟨3, ⟨0, 4, 6⟩⟩
        (.Record [⟨⟨4, ⟨0, 7, 8⟩⟩,
          ⟨.Designator ⟨0, 8, 10⟩ ⟨1, some ⟨0, 0, 1⟩⟩⟩⟩])) (by decide)⟩,
   ⟨by decide,
    claim_C9.2.2 ⟨0, 9⟩ ⟨0, ⟨⟨9, ⟨0, 1, 3⟩⟩, none, none, [], []⟩⟩ (by decide)⟩⟩

/-- C10: a bare selected-name designator goes straight to the
designator-reference hook — the bare-span hook is never consulted for it
(for any searcher, the instrumented log extends by `designatorRef` alone);
a standalone positioned designator node always consults the bare-span hook
first; and the suffix of a prefixed selected name is searched as such a
positioned designator node.  Span pruning therefore does not protect bare
selected-name designators. -/
theorem claim_C10 :
    (∀ (σ T : Type) (sr : Searcher σ T) (s : σ) (log : List HookTag)
        (pos : SrcPos) (d : WithRef Designator),
      searchSelectedName (instrument sr) ((s, log)) (.Designator pos d)
        = (((sr.search_designator_ref s pos d).1, log ++ [.designatorRef]),
           (sr.search_designator_ref s pos d).2.or_not_found))
    ∧ (∀ (σ T : Type) (sr : Searcher σ T) (s : σ) (log : List HookTag)
        (d : WithPos (WithRef Designator)),
      searchPosDesignator (instrument sr) ((s, log)) d
        = match sr.search_with_pos s d.pos with
          | (s1, .Finished result) => ((s1, log ++ [.withPos]), result)
          | (s1, .NotFinished) =>
              (((sr.search_designator_ref s1 d.pos d.item).1,
                log ++ [.withPos, .designatorRef]),
               (sr.search_designator_ref s1 d.pos d.item).2.or_not_found))
    ∧ (∀ (σ T : Type) (sr : Searcher σ T) (s : σ) (pos : SrcPos)
        (pfx : SelectedNameP) (dsg : WithPos (WithRef Designator)),
      searchSelectedName sr s (.Selected pos pfx dsg)
        = thenIfNotFound (searchSelectedName sr s pfx)
            (fun s1 => searchPosDesignator sr s1 dsg)) := by
  refine ⟨fun σ T sr s log pos d => ?_, fun σ T sr s log d => ?_,
    fun σ T sr s pos pfx dsg => ?_⟩
  · rcases h : sr.search_designator_ref s pos d with ⟨s1, st⟩
    cases st with
    | Finished result =>
        simp [searchSelectedName, instrument, orNotFoundS, orElseS, h,
          SearchState.or_not_found, SearchState.or_else]
    | NotFinished =>
        simp [searchSelectedName, instrument, orNotFoundS, orElseS, h,
          SearchState.or_not_found, SearchState.or_else]
  · rcases hw : sr.search_with_pos s d.pos with ⟨s1, st⟩
    cases st with
    | Finished result =>
        simp [searchPosDesignator, instrument, orNotFoundS, orElseS, hw]
    | NotFinished =>
        rcases hd : sr.search_designator_ref s1 d.pos d.item with ⟨s2, st2⟩
        cases st2 with
        | Finished result =>
            simp [searchPosDesignator, instrument, orNotFoundS, orElseS,
              hw, hd, SearchState.or_not_found, SearchState.or_else]
        | NotFinished =>
            simp [searchPosDesignator, instrument, orNotFoundS, orElseS,
              hw, hd, SearchState.or_not_found, SearchState.or_else]
  · rcases hp : searchSelectedName sr s pfx with ⟨s1, r⟩
    cases r with
    | Found v => simp [searchSelectedName, thenIfNotFound, hp]
    | NotFound =>
        rcases hd : searchPosDesignator sr s1 dsg with ⟨s2, r2⟩
        cases r2 <;> simp [searchSelectedName, thenIfNotFound, hp, hd]

end VhdlSearch
